import Mathlib

/-!
Verification development for the genysys-pad-fe client.

The bonding-curve pricing engine (src/lib/utils/calculations.js), the
error-normalization function (parseProgramError), the transaction
submission pipeline (sendTransaction) and TransactionBuilder.buildAndSend
are shallowly embedded below.  JS double-precision arithmetic on
human-unit amounts is modelled by exact rational arithmetic (ℚ); bn.js
big-integer arithmetic is modelled by ℕ/ℤ with truncated division.
-/

namespace GenysysPad

/-- Pool parameter record (poolData.params in the source); buyTax and
sellTax are basis points. -/
structure PoolParams where
  buyTax : ℕ
  sellTax : ℕ

/-- Pool account data as read from chain: raw integer reserves
(stable side 6 decimals, project side 9 decimals) and the total sell
amount, plus the optional params record. -/
structure PoolData where
  reserveStableMint : ℕ
  stableReserveVirtual : ℕ
  reserveProjectMint : ℕ
  tokenReserveVirtual : ℕ
  totalSellAmount : ℕ
  params : Option PoolParams

/-- Result record of calculateBuyTokensOut. -/
structure BuyQuote where
  tokensOut : ℚ
  priceImpact : ℚ
  fee : ℚ
  tax : ℚ

/-- Result record of calculateSellUsdcOut. -/
structure SellQuote where
  usdcOut : ℚ
  priceImpact : ℚ
  fee : ℚ
  tax : ℚ

/-- FEES.DEFAULT_TRADING_FEE from src constants (100 basis points). -/
def DEFAULT_TRADING_FEE : ℕ := 100

/-- Models the source expression poolData.params?.buyTax || 0. -/
def effBuyTax (p : PoolData) : ℕ :=
  match p.params with
  | none => 0
  | some q => q.buyTax

/-- Models the source expression poolData.params?.sellTax || 0. -/
def effSellTax (p : PoolData) : ℕ :=
  match p.params with
  | none => 0
  | some q => q.sellTax

/-- Models config?.tradingFee?.toNumber() || FEES.DEFAULT_TRADING_FEE:
an absent config, an absent tradingFee field, and a zero fee (JS falsy)
all fall back to the default of 100 bps. -/
def effTradingFee (config : Option ℕ) : ℕ :=
  match config with
  | none => DEFAULT_TRADING_FEE
  | some f => if f = 0 then DEFAULT_TRADING_FEE else f

/-- Translation of calculateCurrentPrice (calculations.js lines 18-37).
BN arithmetic: totals are integer sums, the scaled quotient uses
integer (floor) division, and toNumber()/1000 is the final ℚ division.
The function is total, so the source's catch-and-return-0 path has no
residue here. -/
def calculateCurrentPrice (poolData : Option PoolData) : ℚ :=
  match poolData with
  | none => 0
  | some p =>
    let totalStable := p.reserveStableMint + p.stableReserveVirtual
    let totalToken := p.reserveProjectMint + p.tokenReserveVirtual
    if totalToken = 0 then 0
    else ((totalStable * 1000 / totalToken : ℕ) : ℚ) / 1000

/-- Translation of calculateBuyTokensOut (calculations.js lines 46-91).
The Option on usdcAmount models the undefined/null guard; the guard
branch returns the zeroed result object.  Reserves are raw integers,
divided down to human units exactly as the source does. -/
def calculateBuyTokensOut (poolData : Option PoolData) (usdcAmount : Option ℚ)
    (config : Option ℕ) : BuyQuote :=
  match poolData, usdcAmount with
  | none, _ => { tokensOut := 0, priceImpact := 0, fee := 0, tax := 0 }
  | some _, none => { tokensOut := 0, priceImpact := 0, fee := 0, tax := 0 }
  | some p, some x =>
    if x ≤ 0 then { tokensOut := 0, priceImpact := 0, fee := 0, tax := 0 }
    else
      let tradingFee : ℚ := (effTradingFee config : ℚ)
      let feeAmount := x * (tradingFee / 10000)
      let amountAfterFee := x - feeAmount
      let totalStable := (p.reserveStableMint : ℚ) / 10 ^ 6 + (p.stableReserveVirtual : ℚ) / 10 ^ 6
      let totalToken := (p.reserveProjectMint : ℚ) / 10 ^ 9 + (p.tokenReserveVirtual : ℚ) / 10 ^ 9
      let k := totalStable * totalToken
      let newStable := totalStable + amountAfterFee
      let newToken := k / newStable
      let tokensOut := totalToken - newToken
      let buyTax : ℚ := (effBuyTax p : ℚ) / 10000
      let taxAmount := tokensOut * buyTax
      let netTokensOut := tokensOut - taxAmount
      let oldPrice := totalStable / totalToken
      let newPrice := newStable / newToken
      let priceImpact := ((newPrice - oldPrice) / oldPrice) * 100
      { tokensOut := netTokensOut, priceImpact := |priceImpact|,
        fee := feeAmount, tax := taxAmount }

/-- Translation of calculateSellUsdcOut (calculations.js lines 100-145):
sell tax is applied to the input first, the trading fee to the output
stable amount after the swap. -/
def calculateSellUsdcOut (poolData : Option PoolData) (tokenAmount : Option ℚ)
    (config : Option ℕ) : SellQuote :=
  match poolData, tokenAmount with
  | none, _ => { usdcOut := 0, priceImpact := 0, fee := 0, tax := 0 }
  | some _, none => { usdcOut := 0, priceImpact := 0, fee := 0, tax := 0 }
  | some p, some t =>
    if t ≤ 0 then { usdcOut := 0, priceImpact := 0, fee := 0, tax := 0 }
    else
      let sellTax : ℚ := (effSellTax p : ℚ) / 10000
      let taxAmount := t * sellTax
      let amountAfterTax := t - taxAmount
      let totalStable := (p.reserveStableMint : ℚ) / 10 ^ 6 + (p.stableReserveVirtual : ℚ) / 10 ^ 6
      let totalToken := (p.reserveProjectMint : ℚ) / 10 ^ 9 + (p.tokenReserveVirtual : ℚ) / 10 ^ 9
      let k := totalStable * totalToken
      let newToken := totalToken + amountAfterTax
      let newStable := k / newToken
      let stableOut := totalStable - newStable
      let tradingFee : ℚ := (effTradingFee config : ℚ)
      let feeAmount := stableOut * (tradingFee / 10000)
      let netUsdcOut := stableOut - feeAmount
      let oldPrice := totalStable / totalToken
      let newPrice := newStable / newToken
      let priceImpact := ((oldPrice - newPrice) / oldPrice) * 100
      { usdcOut := netUsdcOut, priceImpact := |priceImpact|,
        fee := feeAmount, tax := taxAmount }

/-- Translation of calculatePoolProgress (calculations.js lines 152-164).
bn.js subtraction may go negative and bn.js div truncates toward zero,
so the computation lives in ℤ with Int.tdiv. -/
def calculatePoolProgress (poolData : Option PoolData) : ℤ :=
  match poolData with
  | none => 100
  | some p =>
    if p.totalSellAmount = 0 then 100
    else
      let sold : ℤ := (p.totalSellAmount : ℤ) - (p.reserveProjectMint : ℤ)
      let progress := Int.tdiv (sold * 100) (p.totalSellAmount : ℤ)
      min progress 100

/-- Translation of numberToBN (calculations.js lines 195-203):
new BN(Math.floor(num * 10^decimals)).  The input is an exact rational
(finite JS number); the in-range construction never throws, so the
catch branch has no residue here. -/
def numberToBN (num : ℚ) (decimals : ℕ) : ℤ :=
  ⌊num * 10 ^ decimals⌋

/-- Modelled from the spec (the buyQuote steps of section 4.2, in the
order the spec writes them); used to compare the source function against
the spec wording. -/
def specBuyTokensOut (p : PoolData) (stableIn : ℚ) (config : Option ℕ) : ℚ :=
  let netIn := stableIn * (1 - (effTradingFee config : ℚ) / 10000)
  let totalStable := (p.reserveStableMint : ℚ) / 10 ^ 6 + (p.stableReserveVirtual : ℚ) / 10 ^ 6
  let totalToken := (p.reserveProjectMint : ℚ) / 10 ^ 9 + (p.tokenReserveVirtual : ℚ) / 10 ^ 9
  let k := totalStable * totalToken
  let newStable := totalStable + netIn
  let newToken := k / newStable
  let rawTokensOut := totalToken - newToken
  rawTokensOut * (1 - (effBuyTax p : ℚ) / 10000)

/-- Modelled from the spec (the sellQuote ordering of section 4.2:
sell tax on the input before the swap, trading fee on the stable output
after the swap). -/
def specSellUsdcOut (p : PoolData) (tokenIn : ℚ) (config : Option ℕ) : ℚ :=
  let afterTax := tokenIn * (1 - (effSellTax p : ℚ) / 10000)
  let totalStable := (p.reserveStableMint : ℚ) / 10 ^ 6 + (p.stableReserveVirtual : ℚ) / 10 ^ 6
  let totalToken := (p.reserveProjectMint : ℚ) / 10 ^ 9 + (p.tokenReserveVirtual : ℚ) / 10 ^ 9
  let k := totalStable * totalToken
  let newToken := totalToken + afterTax
  let newStable := k / newToken
  let stableOut := totalStable - newStable
  stableOut * (1 - (effTradingFee config : ℚ) / 10000)

/-- The worked-example pool of the spec scenario: realStable = 0,
virtualStable = 30000 USDC raw, realProject = 1e6 tokens raw,
virtualProject = 0, buy tax 0. -/
def examplePool : PoolData :=
  { reserveStableMint := 0
    stableReserveVirtual := 30000000000
    reserveProjectMint := 1000000000000000
    tokenReserveVirtual := 0
    totalSellAmount := 1000000000000000
    params := none }

/-- A pool whose real project reserve exceeds totalSellAmount. -/
def progressCexPool : PoolData :=
  { reserveStableMint := 0
    stableReserveVirtual := 0
    reserveProjectMint := 30
    tokenReserveVirtual := 0
    totalSellAmount := 10
    params := none }

/-- A pool with a tiny stable reserve and a large token reserve: the
scaled integer division of calculateCurrentPrice floors to zero. -/
def priceCexPool : PoolData :=
  { reserveStableMint := 1
    stableReserveVirtual := 0
    reserveProjectMint := 2000
    tokenReserveVirtual := 0
    totalSellAmount := 2000
    params := none }

/-- ERROR_MESSAGES.TRANSACTION_FAILED from src constants. -/
def MSG_TRANSACTION_FAILED : String := "Transaction failed"

/-- ERROR_MESSAGES.UNAUTHORIZED from src constants. -/
def MSG_UNAUTHORIZED : String := "Unauthorized action"

/-- ERROR_MESSAGES.INVALID_AMOUNT from src constants. -/
def MSG_INVALID_AMOUNT : String := "Please enter a valid amount"

/-- ERROR_MESSAGES.INSUFFICIENT_LIQUIDITY from src constants. -/
def MSG_INSUFFICIENT_LIQUIDITY : String := "Insufficient liquidity in pool"

/-- ERROR_MESSAGES.GLOBAL_LIMIT_EXCEEDED from src constants. -/
def MSG_GLOBAL_LIMIT_EXCEEDED : String := "Global price limit exceeded. Try selling a smaller amount."

/-- ERROR_MESSAGES.WALLET_LIMIT_EXCEEDED from src constants. -/
def MSG_WALLET_LIMIT_EXCEEDED : String := "Wallet limit exceeded. You cannot sell this much yet."

/-- ERROR_MESSAGES.INSUFFICIENT_BALANCE from src constants. -/
def MSG_INSUFFICIENT_BALANCE : String := "Insufficient balance"

/-- sub leads l: the first characters of l are exactly sub. -/
def listLeads : List Char → List Char → Bool
  | [], _ => true
  | _ :: _, [] => false
  | a :: as, b :: bs => a == b && listLeads as bs

/-- JS String.prototype.includes: sub occurs contiguously in l. -/
def occursIn (sub l : List Char) : Bool :=
  match l with
  | [] => listLeads sub []
  | _ :: tl => listLeads sub l || occursIn sub tl

/-- The character class of the regex [0-9a-fA-F]. -/
def hexDigit (c : Char) : Bool :=
  ('0' ≤ c && c ≤ '9') || ('a' ≤ c && c ≤ 'f') || ('A' ≤ c && c ≤ 'F')

/-- Greedy match of the regex 0x[0-9a-fA-F]+ anchored at the head of l. -/
def hexMatchAt (l : List Char) : Option (List Char) :=
  match l with
  | '0' :: 'x' :: rest =>
    let ds := rest.takeWhile hexDigit
    if ds.isEmpty then none else some ('0' :: 'x' :: ds)
  | _ => none

/-- Leftmost (earliest, then greedy) match of /0x[0-9a-fA-F]+/ in l,
as JS String.prototype.match returns it. -/
def firstHexCode (l : List Char) : Option (List Char) :=
  match l with
  | [] => none
  | _ :: tl =>
    match hexMatchAt l with
    | some m => some m
    | none => firstHexCode tl

/-- The errorMap object of parseProgramError (src/unnamed/part_001),
entries in source (insertion) order. -/
def errorMap : List (String × String) :=
  [(("OwnerAlreadySet"), ("Owner has already been set")),
   (("Unauthorized"), MSG_UNAUTHORIZED),
   (("NoStableCoins"), ("No stable coins provided")),
   (("CoinNotFound"), ("Stable coin not found")),
   (("TokenAlreadyMinted"), ("Token has already been minted")),
   (("InvalidTax"), ("Invalid tax value (must be 0-100%)")),
   (("NoCreator"), ("No creator specified")),
   (("InvalidRouter"), ("Invalid DEX router selected")),
   (("UnsupportedStableCoin"), ("Unsupported stable coin")),
   (("InvalidAmount"), MSG_INVALID_AMOUNT),
   (("InsufficientLiquidity"), MSG_INSUFFICIENT_LIQUIDITY),
   (("MathOverflow"), ("Mathematical overflow occurred")),
   (("GlobalLimitExceeded"), MSG_GLOBAL_LIMIT_EXCEEDED),
   (("WalletLimitExceeded"), MSG_WALLET_LIMIT_EXCEEDED),
   (("PoolNotComplete"), ("Pool is not complete yet")),
   (("PoolAlreadyFinalized"), ("Pool has already been finalized")),
   (("NoTokensToAdd"), ("No tokens available to add")),
   (("UnsupportedDex"), ("Unsupported DEX")),
   (("PoolClosed"), ("Pool is closed for trading")),
   (("InsufficientOutputAmount"), ("Output amount too low")),
   (("PriceLimitExceeded"), ("Price limit exceeded")),
   (("InsufficientTokens"), ("Insufficient token balance")),
   (("TooManyReceivers"), ("Too many tax receivers")),
   (("InvalidPercentages"), ("Invalid percentage values")),
   (("PoolNotClosed"), ("Pool is not closed yet")),
   (("NoLockedTokens"), ("No locked tokens found")),
   (("NoTaxToDistribute"), ("No tax available to distribute")),
   (("BundleAlreadyExecuted"), ("Bundle buy already executed")),
   (("InvalidFee"), ("Invalid fee amount")),
   (("PoolAlreadyActive"), ("Pool is already active")),
   (("BundleNotExecuted"), ("Bundle buy not executed yet")),
   (("InvalidRaydiumConfig"), ("Invalid Raydium configuration")),
   (("RaydiumPoolCreationFailed"), ("Failed to create Raydium pool")),
   (("RaydiumSwapFailed"), ("Raydium swap failed")),
   (("InvalidFeeTier"), ("Invalid fee tier selected")),
   (("TokenOrderingMismatch"), ("Token ordering mismatch")),
   (("InsufficientLiquidityForPool"), ("Insufficient liquidity for Raydium pool")),
   (("InvalidSqrtPrice"), ("Invalid sqrt price")),
   (("PoolNotFinalized"), ("Pool not finalized to DEX yet")),
   (("RaydiumAlreadyInitialized"), ("Raydium pool already initialized")),
   (("RaydiumPoolNotCreated"), ("Raydium pool not created"))]

/-- The numeric-code switch of parseProgramError: looks at the first
hex literal of the message, mapping 0x1771, 0x1786, 0x1787; any other
code falls through (the switch default). -/
def hexStage (m : List Char) : Option String :=
  match firstHexCode m with
  | none => none
  | some code =>
    if code = (("0x1771").toList) then some MSG_INSUFFICIENT_LIQUIDITY
    else if code = (("0x1786").toList) then some MSG_GLOBAL_LIMIT_EXCEEDED
    else if code = (("0x1787").toList) then some MSG_WALLET_LIMIT_EXCEEDED
    else none

/-- The for-of loop over Object.entries(errorMap): first key that is a
substring of the message wins. -/
def findMapValue : List (String × String) → List Char → Option String
  | [], _ => none
  | (k, v) :: rest, m =>
    if occursIn k.toList m = true then some v else findMapValue rest m

/-- Translation of parseProgramError (src/unnamed/part_001 lines 11-96).
The input models error?.message (none for a null error); stages run in
source order: numeric-code switch, errorMap substring loop, generic
substring heuristics, then the length-gated fallback. -/
def parseProgramError (error : Option String) : String :=
  match error with
  | none => MSG_TRANSACTION_FAILED
  | some errorMessage =>
    let m := errorMessage.toList
    match hexStage m with
    | some r => r
    | none =>
      match findMapValue errorMap m with
      | some v => v
      | none =>
        if occursIn (("insufficient").toList) m = true then MSG_INSUFFICIENT_BALANCE
        else if occursIn (("User rejected").toList) m = true then ("Transaction cancelled")
        else if occursIn (("Simulation failed").toList) m = true then
          ("Transaction simulation failed. Please try again.")
        else if occursIn (("Blockhash not found").toList) m = true then
          ("Network error. Please try again.")
        else if 100 < errorMessage.length then MSG_TRANSACTION_FAILED
        else errorMessage

/-- Outcome of racing connection.confirmTransaction against the 60 s
timeout in sendTransaction: either the confirmation resolved (carrying
whether confirmation.value.err was set) or the race timed out. -/
inductive ConfirmOutcome
  | confirmed (hasErr : Bool)
  | timeout

/-- The check status?.value?.confirmationStatus === confirmed ||
=== finalized performed on the getSignatureStatus result; the input is
that confirmationStatus field, none when the lookup shows no record. -/
def lookupConfirmedOrFinalized (status : Option String) : Bool :=
  status == some ("confirmed") || status == some ("finalized")

/-- Decision structure of sendTransaction (src/unnamed/part_003 lines
39-72): true means the function returns the signature (success), false
means it throws.  A confirmation carrying value.err throws inside the
inner try, so it lands in the same catch as a timeout: both paths do a
direct signature-status lookup and succeed iff it reports confirmed or
finalized. -/
def sendTransactionSucceeds (confirm : ConfirmOutcome) (status : Option String) : Bool :=
  match confirm with
  | ConfirmOutcome.confirmed false => true
  | ConfirmOutcome.confirmed true => lookupConfirmedOrFinalized status
  | ConfirmOutcome.timeout => lookupConfirmedOrFinalized status

/-- Modelled from the spec: the claim's success condition for the
submission pipeline - success exactly on an error-free confirmation, or
on a timeout whose status lookup reports confirmed/finalized; a
confirmation carrying a protocol error is fatal. -/
def claimedSendSuccess (confirm : ConfirmOutcome) (status : Option String) : Bool :=
  match confirm with
  | ConfirmOutcome.confirmed false => true
  | ConfirmOutcome.confirmed true => false
  | ConfirmOutcome.timeout => lookupConfirmedOrFinalized status

/-- The options object passed to connection.sendRawTransaction. -/
structure SendOpts where
  skipPreflight : Bool
  preflightCommitment : String
  maxRetries : ℕ

/-- The send options used by sendTransaction (src/unnamed/part_003). -/
def sendTransactionSendOpts : SendOpts :=
  { skipPreflight := false, preflightCommitment := ("confirmed"), maxRetries := 3 }

/-- The send options used by TransactionBuilder.buildAndSend
(TransactionBuilder.js lines 116-134). -/
def buildAndSendSendOpts : SendOpts :=
  { skipPreflight := false, preflightCommitment := ("confirmed"), maxRetries := 3 }

/-- Decision structure of TransactionBuilder.buildAndSend for the same
environment inputs: it awaits a single confirmTransaction with no
timeout race, never consults getSignatureStatus, and ignores the
confirmation result value (so a confirmation with value.err still
returns the signature); expiry of the validity window rejects the await
and the method throws. -/
def buildAndSendSucceeds (confirm : ConfirmOutcome) (_status : Option String) : Bool :=
  match confirm with
  | ConfirmOutcome.confirmed _ => true
  | ConfirmOutcome.timeout => false

/-- The pre-trade stable-side total in human units (6 decimals), the
expression both quote functions compute inline. -/
def totalStableQ (p : PoolData) : ℚ :=
  (p.reserveStableMint : ℚ) / 10 ^ 6 + (p.stableReserveVirtual : ℚ) / 10 ^ 6

/-- The pre-trade token-side total in human units (9 decimals), the
expression both quote functions compute inline. -/
def totalTokenQ (p : PoolData) : ℚ :=
  (p.reserveProjectMint : ℚ) / 10 ^ 9 + (p.tokenReserveVirtual : ℚ) / 10 ^ 9

end GenysysPad

namespace GenysysPad

lemma one_le_effTradingFee (config : Option ℕ) : 1 ≤ effTradingFee config := by
  cases config with
  | none => simp [effTradingFee, DEFAULT_TRADING_FEE]
  | some f =>
    simp only [effTradingFee]
    split
    · simp [DEFAULT_TRADING_FEE]
    · omega

lemma buy_tokensOut_eq (p : PoolData) (x : ℚ) (config : Option ℕ) (hx : 0 < x) :
    (calculateBuyTokensOut (some p) (some x) config).tokensOut =
      (totalTokenQ p - totalStableQ p * totalTokenQ p /
        (totalStableQ p + (x - x * ((effTradingFee config : ℚ) / 10000))))
      - (totalTokenQ p - totalStableQ p * totalTokenQ p /
        (totalStableQ p + (x - x * ((effTradingFee config : ℚ) / 10000))))
        * ((effBuyTax p : ℚ) / 10000) := by
  simp only [calculateBuyTokensOut, totalStableQ, totalTokenQ]
  rw [if_neg (not_le.mpr hx)]

lemma sell_usdcOut_eq (p : PoolData) (t : ℚ) (config : Option ℕ) (ht : 0 < t) :
    (calculateSellUsdcOut (some p) (some t) config).usdcOut =
      (totalStableQ p - totalStableQ p * totalTokenQ p /
        (totalTokenQ p + (t - t * ((effSellTax p : ℚ) / 10000))))
      - (totalStableQ p - totalStableQ p * totalTokenQ p /
        (totalTokenQ p + (t - t * ((effSellTax p : ℚ) / 10000))))
        * ((effTradingFee config : ℚ) / 10000) := by
  simp only [calculateSellUsdcOut, totalStableQ, totalTokenQ]
  rw [if_neg (not_le.mpr ht)]

lemma sell_usdcOut_zero_of_nonpos (p : PoolData) (t : ℚ) (config : Option ℕ)
    (ht : t ≤ 0) : (calculateSellUsdcOut (some p) (some t) config).usdcOut = 0 := by
  simp only [calculateSellUsdcOut]
  rw [if_pos ht]

/-- C8: zero, negative, or undefined input amounts, and a missing pool,
make both quote functions return the all-zero result object (output,
priceImpact and fee all 0); the embedded functions are total, so no
exception is possible. -/
theorem quotes_zero_on_degenerate_inputs :
    ∀ (p : Option PoolData) (a : Option ℚ) (config : Option ℕ),
    (p = none ∨ a = none ∨ ∃ v, a = some v ∧ v ≤ 0) →
    ((calculateBuyTokensOut p a config).tokensOut = 0 ∧
     (calculateBuyTokensOut p a config).priceImpact = 0 ∧
     (calculateBuyTokensOut p a config).fee = 0) ∧
    ((calculateSellUsdcOut p a config).usdcOut = 0 ∧
     (calculateSellUsdcOut p a config).priceImpact = 0 ∧
     (calculateSellUsdcOut p a config).fee = 0) := by
  rintro p a config (rfl | rfl | ⟨v, rfl, hv⟩)
  · simp [calculateBuyTokensOut, calculateSellUsdcOut]
  · cases p <;> simp [calculateBuyTokensOut, calculateSellUsdcOut]
  · cases p <;> simp [calculateBuyTokensOut, calculateSellUsdcOut, hv]

theorem quotes_zero_on_degenerate_inputs_witness :
    ((calculateBuyTokensOut (some examplePool) (some (-1)) none).tokensOut = 0 ∧
     (calculateBuyTokensOut (some examplePool) (some (-1)) none).priceImpact = 0 ∧
     (calculateBuyTokensOut (some examplePool) (some (-1)) none).fee = 0) ∧
    ((calculateSellUsdcOut (some examplePool) (some (-1)) none).usdcOut = 0 ∧
     (calculateSellUsdcOut (some examplePool) (some (-1)) none).priceImpact = 0 ∧
     (calculateSellUsdcOut (some examplePool) (some (-1)) none).fee = 0) :=
  quotes_zero_on_degenerate_inputs (some examplePool) (some (-1)) none
    (Or.inr (Or.inr ⟨-1, rfl, by norm_num⟩))

/-- C5 counterexample: a pool whose real project reserve (30) exceeds
totalSellAmount (10) makes calculatePoolProgress return -200, outside
the claimed interval [0, 100]. -/
theorem poolProgress_negative_cex :
    calculatePoolProgress (some progressCexPool) = -200 ∧
    calculatePoolProgress (some progressCexPool) < 0 := by
  constructor <;> decide

/-- C5 (amended): calculatePoolProgress returns 100 when totalSellAmount
is 0, never exceeds 100, and lies in [0, 100] whenever the real project
reserve does not exceed totalSellAmount; when totalSellAmount is
positive and the reserve exceeds it, the result is never positive - the
truncating division and Math.min clamp only the upper bound, so the
value can fall below 0 (it is -200 on the counterexample pool) and the
claimed [0, 100] interval fails. -/
theorem poolProgress_bounds :
    ∀ p : PoolData,
    calculatePoolProgress (some p) ≤ 100 ∧
    (p.totalSellAmount = 0 → calculatePoolProgress (some p) = 100) ∧
    (p.reserveProjectMint ≤ p.totalSellAmount → 0 ≤ calculatePoolProgress (some p)) ∧
    (0 < p.totalSellAmount → p.totalSellAmount < p.reserveProjectMint →
      calculatePoolProgress (some p) ≤ 0) := by
  intro p
  by_cases h : p.totalSellAmount = 0
  · simp [calculatePoolProgress, h]
  · refine ⟨?_, fun h0 => absurd h0 h, fun hle => ?_, fun _ hlt => ?_⟩
    · simp only [calculatePoolProgress, if_neg h]
      exact min_le_right _ _
    · simp only [calculatePoolProgress, if_neg h]
      have hc : (p.reserveProjectMint : ℤ) ≤ (p.totalSellAmount : ℤ) := by exact_mod_cast hle
      have h1 : (0 : ℤ) ≤ ((p.totalSellAmount : ℤ) - (p.reserveProjectMint : ℤ)) * 100 := by
        nlinarith
      have h2 : (0 : ℤ) ≤ (p.totalSellAmount : ℤ) := by positivity
      exact le_min (Int.tdiv_nonneg h1 h2) (by norm_num)
    · simp only [calculatePoolProgress, if_neg h]
      have hc : (p.totalSellAmount : ℤ) < (p.reserveProjectMint : ℤ) := by exact_mod_cast hlt
      have h1 : ((p.totalSellAmount : ℤ) - (p.reserveProjectMint : ℤ)) * 100 ≤ 0 := by
        nlinarith
      have h2 : (0 : ℤ) ≤ (p.totalSellAmount : ℤ) := by positivity
      have h3 : (0 : ℤ) ≤ Int.tdiv
          (-(((p.totalSellAmount : ℤ) - (p.reserveProjectMint : ℤ)) * 100))
          (p.totalSellAmount : ℤ) := Int.tdiv_nonneg (by linarith) h2
      have h4 : Int.tdiv
          (-(((p.totalSellAmount : ℤ) - (p.reserveProjectMint : ℤ)) * 100))
          (p.totalSellAmount : ℤ) =
          -(Int.tdiv (((p.totalSellAmount : ℤ) - (p.reserveProjectMint : ℤ)) * 100)
            (p.totalSellAmount : ℤ)) := Int.neg_tdiv _ _
      have h5 : Int.tdiv (((p.totalSellAmount : ℤ) - (p.reserveProjectMint : ℤ)) * 100)
          (p.totalSellAmount : ℤ) ≤ 0 := by
        rw [h4] at h3
        linarith
      exact le_trans (min_le_left _ _) h5

theorem poolProgress_bounds_witness :
    calculatePoolProgress (some examplePool) ≤ 100 ∧
    0 ≤ calculatePoolProgress (some examplePool) ∧
    calculatePoolProgress (some progressCexPool) ≤ 0 :=
  ⟨(poolProgress_bounds examplePool).1,
   (poolProgress_bounds examplePool).2.2.1 (by norm_num [examplePool]),
   (poolProgress_bounds progressCexPool).2.2.2 (by norm_num [progressCexPool])
     (by norm_num [progressCexPool])⟩

/-- C6 counterexample: a pool with stable total 1 and token total 2000
has calculateCurrentPrice 0 although its token-side reserve is nonzero,
because the scaled integer division 1*1000/2000 floors to 0. -/
theorem currentPrice_zero_nonzero_reserve_cex :
    calculateCurrentPrice (some priceCexPool) = 0 ∧
    priceCexPool.reserveProjectMint + priceCexPool.tokenReserveVirtual ≠ 0 := by
  constructor
  · norm_num [calculateCurrentPrice, priceCexPool]
  · norm_num [priceCexPool]

/-- C6 (amended): calculateCurrentPrice is always nonnegative and never
throws (the embedding is total); it is 0 exactly when the token-side
total is 0 or when the stable total scaled by 1000 is smaller than the
token total, so the integer division floors to 0. -/
theorem currentPrice_nonneg_zero_iff :
    ∀ p : PoolData,
    0 ≤ calculateCurrentPrice (some p) ∧
    (calculateCurrentPrice (some p) = 0 ↔
      p.reserveProjectMint + p.tokenReserveVirtual = 0 ∨
      (p.reserveStableMint + p.stableReserveVirtual) * 1000 <
        p.reserveProjectMint + p.tokenReserveVirtual) := by
  intro p
  by_cases h : p.reserveProjectMint + p.tokenReserveVirtual = 0
  · simp [calculateCurrentPrice, h]
  · have ht : 0 < p.reserveProjectMint + p.tokenReserveVirtual := Nat.pos_of_ne_zero h
    constructor
    · simp only [calculateCurrentPrice, if_neg h]
      positivity
    · simp only [calculateCurrentPrice, if_neg h]
      rw [div_eq_zero_iff]
      constructor
      · rintro (h1 | h2)
        · right
          have : (p.reserveStableMint + p.stableReserveVirtual) * 1000 /
              (p.reserveProjectMint + p.tokenReserveVirtual) = 0 := by exact_mod_cast h1
          exact (Nat.div_eq_zero_iff ht).mp this
        · exact absurd h2 (by norm_num)
      · rintro (h1 | h2)
        · exact absurd h1 h
        · left
          exact_mod_cast (Nat.div_eq_zero_iff ht).mpr h2

/-- C10 counterexample: a negative input is not rejected; numberToBN
simply floors, returning the negative integer -50 for input -1/2 at 2
decimals instead of failing with InvalidAmount. -/
theorem numberToBN_negative_cex :
    numberToBN (-(1 : ℚ) / 2) 2 = -50 ∧ numberToBN (-(1 : ℚ) / 2) 2 ≠ 0 := by
  norm_num [numberToBN]

/-- C10 (amended): numberToBN multiplies the human amount by
10^decimals and floors it to an integer (the two floor inequalities
below), and it does this for negative inputs as well; only nonnegative
inputs are guaranteed a nonnegative result.  No InvalidAmount failure
exists: the function is total on rational inputs. -/
theorem numberToBN_floor_spec :
    ∀ (num : ℚ) (d : ℕ),
    ((numberToBN num d : ℚ) ≤ num * 10 ^ d ∧
     num * 10 ^ d < (numberToBN num d : ℚ) + 1) ∧
    (0 ≤ num → 0 ≤ numberToBN num d) := by
  intro num d
  refine ⟨⟨?_, ?_⟩, fun hnum => ?_⟩
  · simp only [numberToBN]
    exact Int.floor_le _
  · simp only [numberToBN]
    exact Int.lt_floor_add_one _
  · simp only [numberToBN]
    exact Int.floor_nonneg.mpr (by positivity)

theorem numberToBN_floor_spec_witness :
    ((numberToBN (3 / 2) 2 : ℚ) ≤ (3 / 2 : ℚ) * 10 ^ 2 ∧
     (3 / 2 : ℚ) * 10 ^ 2 < (numberToBN (3 / 2) 2 : ℚ) + 1) ∧
    0 ≤ numberToBN (3 / 2) 2 :=
  ⟨(numberToBN_floor_spec (3 / 2) 2).1,
   (numberToBN_floor_spec (3 / 2) 2).2 (by norm_num)⟩

/-- C3 counterexample: a confirmation that resolves carrying a protocol
error is thrown inside the inner try, lands in the same catch as a
timeout, and the follow-up signature-status lookup reporting finalized
makes sendTransaction return the signature - success - although the
claim says a protocol-errored confirmation is fatal for the attempt. -/
theorem sendTransaction_confirmErr_cex :
    sendTransactionSucceeds (ConfirmOutcome.confirmed true) (some ("finalized")) = true ∧
    claimedSendSuccess (ConfirmOutcome.confirmed true) (some ("finalized")) = false := by
  constructor <;> decide

/-- C3 (amended): sendTransaction reports success exactly when the
confirmation resolves without a protocol error, or when the attempt
falls into the catch - by timeout or by a protocol-errored confirmation
alike - and the direct signature-status lookup reports confirmed or
finalized; otherwise it fails. -/
theorem sendTransaction_success_characterization :
    ∀ (c : ConfirmOutcome) (s : Option String),
    sendTransactionSucceeds c s = true ↔
      (c = ConfirmOutcome.confirmed false ∨
       ((c = ConfirmOutcome.confirmed true ∨ c = ConfirmOutcome.timeout) ∧
        lookupConfirmedOrFinalized s = true)) := by
  intro c s
  cases c with
  | confirmed e => cases e <;> simp [sendTransactionSucceeds]
  | timeout => simp [sendTransactionSucceeds]

/-- C9 counterexample: for an environment where confirmation times out
but the signature status would report finalized, sendTransaction
succeeds while buildAndSend fails - so buildAndSend is not behaviorally
equivalent to the sendTransaction pipeline. -/
theorem buildAndSend_not_equivalent_cex :
    buildAndSendSucceeds ConfirmOutcome.timeout (some ("finalized")) = false ∧
    sendTransactionSucceeds ConfirmOutcome.timeout (some ("finalized")) = true := by
  constructor <;> decide

/-- C9 (amended): buildAndSend performs the same raw send (identical
options, bounded at 3 retries) but then awaits a single confirmation
with no 60-second timeout race and no signature-status fallback - its
result never depends on the status lookup, it succeeds on any resolved
confirmation (even one carrying a protocol error), and it fails on
timeout/expiry outright. -/
theorem buildAndSend_simplified_pipeline :
    buildAndSendSendOpts = sendTransactionSendOpts ∧
    (∀ (c : ConfirmOutcome) (s s' : Option String),
      buildAndSendSucceeds c s = buildAndSendSucceeds c s') ∧
    (∀ (e : Bool) (s : Option String),
      buildAndSendSucceeds (ConfirmOutcome.confirmed e) s = true) ∧
    (∀ s : Option String, buildAndSendSucceeds ConfirmOutcome.timeout s = false) := by
  refine ⟨rfl, fun c s s' => ?_, fun e s => rfl, fun s => rfl⟩
  cases c <;> rfl

/-- C4 counterexample: the message contains the numeric code 0x1771,
but the regex match finds the earlier literal 0xa first, the switch
default falls through, no other rule matches, and the raw message is
returned - not the insufficient-liquidity message - so the claimed
normalization regardless of accompanying text fails. -/
theorem parseProgramError_code_not_first_cex :
    occursIn (("0x1771").toList) (("q 0xa b 0x1771").toList) = true ∧
    parseProgramError (some ("q 0xa b 0x1771")) ≠ MSG_INSUFFICIENT_LIQUIDITY := by
  constructor <;> decide

/-- C4 (amended): matching runs numeric-code lookup first, then the
named-error substring map, then the generic heuristics, then the
length-gated fallback.  Consequently a payload whose first hex literal
is 0x1771 normalizes to the insufficient-liquidity message regardless
of the rest of the text; a payload containing the substring
User rejected normalizes to the user-declined message provided no
earlier rule (numeric code, named-error key, the insufficient
heuristic) matched; and a payload longer than 100 characters that no
rule matches is replaced by the generic failure message. -/
theorem parseProgramError_matching_order :
    (∀ msg : String, firstHexCode msg.toList = some (("0x1771").toList) →
      parseProgramError (some msg) = MSG_INSUFFICIENT_LIQUIDITY) ∧
    (∀ msg : String, hexStage msg.toList = none →
      findMapValue errorMap msg.toList = none →
      occursIn (("insufficient").toList) msg.toList = false →
      occursIn (("User rejected").toList) msg.toList = true →
      parseProgramError (some msg) = ("Transaction cancelled")) ∧
    (∀ msg : String, hexStage msg.toList = none →
      findMapValue errorMap msg.toList = none →
      occursIn (("insufficient").toList) msg.toList = false →
      occursIn (("User rejected").toList) msg.toList = false →
      occursIn (("Simulation failed").toList) msg.toList = false →
      occursIn (("Blockhash not found").toList) msg.toList = false →
      100 < msg.length →
      parseProgramError (some msg) = MSG_TRANSACTION_FAILED) := by
  refine ⟨fun msg h => ?_, fun msg h1 h2 h3 h4 => ?_, fun msg h1 h2 h3 h4 h5 h6 h7 => ?_⟩
  · simp only [parseProgramError, hexStage, h]
    norm_num
  · simp only [parseProgramError, h1, h2, h3, h4]
    norm_num
  · simp only [parseProgramError, h1, h2, h3, h4, h5, h6]
    norm_num [h7]

theorem parseProgramError_matching_order_witness :
    parseProgramError (some ("0x1771")) = MSG_INSUFFICIENT_LIQUIDITY :=
  parseProgramError_matching_order.1 ("0x1771") (by decide)

/-- C1 counterexample: on the spec scenario pool (virtual stable 30000
USDC, real project 1e6 tokens, fee 100 bps, buy tax 0) with stableIn
1000, the function returns 990e6/30990 = 33000000/1033, about 31945.8
tokens - not the quoted 32591.2 (= 162956/5): the worked example's
newToken and tokensOut figures contradict the formula itself. -/
theorem buy_example_value_cex :
    (calculateBuyTokensOut (some examplePool) (some 1000) (some 100)).tokensOut =
      33000000 / 1033 ∧
    (calculateBuyTokensOut (some examplePool) (some 1000) (some 100)).tokensOut ≠
      162956 / 5 ∧
    (33000000 / 1033 : ℚ) < 32000 := by
  refine ⟨?_, ?_, by norm_num⟩ <;>
    norm_num [calculateBuyTokensOut, examplePool, effTradingFee, effBuyTax,
      DEFAULT_TRADING_FEE]

/-- C1 (amended): for every pool with positive total reserves and every
stableIn > 0, calculateBuyTokensOut computes its result by the spec's
ordered steps - trading fee off the input, constant product from
pre-trade totals, curve division, buy tax off the output - and on the
spec's worked-example pool it returns 33000000/1033, about 31945.8
tokens, rather than the quoted 32591.2. -/
theorem buyTokensOut_follows_spec_steps :
    (∀ (p : PoolData) (x : ℚ) (config : Option ℕ),
      0 < p.reserveStableMint + p.stableReserveVirtual →
      0 < p.reserveProjectMint + p.tokenReserveVirtual →
      0 < x →
      (calculateBuyTokensOut (some p) (some x) config).tokensOut =
        specBuyTokensOut p x config) ∧
    (calculateBuyTokensOut (some examplePool) (some 1000) (some 100)).tokensOut =
      33000000 / 1033 := by
  constructor
  · intro p x config hS hT hx
    rw [buy_tokensOut_eq p x config hx]
    simp only [specBuyTokensOut, totalStableQ, totalTokenQ]
    have h1 : x - x * ((effTradingFee config : ℚ) / 10000) =
        x * (1 - (effTradingFee config : ℚ) / 10000) := by ring
    rw [h1]
    ring
  · norm_num [calculateBuyTokensOut, examplePool, effTradingFee, effBuyTax,
      DEFAULT_TRADING_FEE]

theorem buyTokensOut_follows_spec_steps_witness :
    (calculateBuyTokensOut (some examplePool) (some 1000) (some 100)).tokensOut =
      specBuyTokensOut examplePool 1000 (some 100) :=
  buyTokensOut_follows_spec_steps.1 examplePool 1000 (some 100)
    (by norm_num [examplePool]) (by norm_num [examplePool]) (by norm_num)

/-- C2: calculateSellUsdcOut applies the sell tax to the input token
amount before the constant-product swap and the trading fee to the
output stable amount after it, while calculateBuyTokensOut applies the
fee to the input and the buy tax to the output - each equals its
spec-ordered composition, so the protocol asymmetry is preserved
exactly. -/
theorem sellUsdcOut_mirror_ordering :
    ∀ (p : PoolData) (v : ℚ) (config : Option ℕ), 0 < v →
    (calculateSellUsdcOut (some p) (some v) config).usdcOut =
      specSellUsdcOut p v config ∧
    (calculateBuyTokensOut (some p) (some v) config).tokensOut =
      specBuyTokensOut p v config := by
  intro p v config hv
  constructor
  · rw [sell_usdcOut_eq p v config hv]
    simp only [specSellUsdcOut, totalStableQ, totalTokenQ]
    have h1 : v - v * ((effSellTax p : ℚ) / 10000) =
        v * (1 - (effSellTax p : ℚ) / 10000) := by ring
    rw [h1]
    ring
  · rw [buy_tokensOut_eq p v config hv]
    simp only [specBuyTokensOut, totalStableQ, totalTokenQ]
    have h1 : v - v * ((effTradingFee config : ℚ) / 10000) =
        v * (1 - (effTradingFee config : ℚ) / 10000) := by ring
    rw [h1]
    ring

theorem sellUsdcOut_mirror_ordering_witness :
    (calculateSellUsdcOut (some examplePool) (some 5) none).usdcOut =
      specSellUsdcOut examplePool 5 none ∧
    (calculateBuyTokensOut (some examplePool) (some 5) none).tokensOut =
      specBuyTokensOut examplePool 5 none :=
  sellUsdcOut_mirror_ordering examplePool 5 none (by norm_num)

lemma frac_le_frac (S T b c : ℚ) (hS : 0 ≤ S) (hT : 0 < T) (hb : 0 ≤ b)
    (hbc : b ≤ c) : S * b / (T + b) ≤ S * c / (T + c) := by
  have h1 : 0 < T + b := by linarith
  have h2 : 0 < T + c := by linarith
  rw [div_le_div_iff₀ h1 h2]
  nlinarith [mul_nonneg (mul_nonneg hS hT.le) (sub_nonneg.mpr hbc)]

lemma roundtrip_arith (S T x f bt st n raw t u out : ℚ)
    (hS : 0 ≤ S) (_hT : 0 ≤ T) (hx : 0 < x)
    (hf1 : 1 ≤ f) (hf2 : f ≤ 10000)
    (hbt1 : 0 ≤ bt) (hbt2 : bt ≤ 10000)
    (hst1 : 0 ≤ st) (hst2 : st ≤ 10000)
    (hn : n = x - x * (f / 10000))
    (hraw : raw = T - S * T / (S + n))
    (htdef : t = raw - raw * (bt / 10000))
    (htpos : 0 < t)
    (hu : u = t - t * (st / 10000))
    (hout : out = S - S * T / (T + u)) :
    out - out * (f / 10000) < x := by
  have hq : (0 : ℚ) < 10000 := by norm_num
  have hbtq : bt / 10000 ≤ 1 := (div_le_one hq).mpr hbt2
  have hbtq0 : 0 ≤ bt / 10000 := div_nonneg hbt1 hq.le
  have hstq : st / 10000 ≤ 1 := (div_le_one hq).mpr hst2
  have hstq0 : 0 ≤ st / 10000 := div_nonneg hst1 hq.le
  have hfq0 : 0 ≤ f / 10000 := div_nonneg (by linarith) hq.le
  have hn0 : 0 ≤ n := by
    rw [hn]
    have h : x - x * (f / 10000) = x * ((10000 - f) / 10000) := by ring
    rw [h]
    exact mul_nonneg hx.le (div_nonneg (by linarith) hq.le)
  have hnx : n < x := by
    rw [hn]
    have h : 0 < x * (f / 10000) := mul_pos hx (div_pos (by linarith) hq)
    linarith
  have hraw_pos : 0 < raw := by
    by_contra hcon
    push_neg at hcon
    have h1 : raw * (1 - bt / 10000) ≤ 0 :=
      mul_nonpos_iff.mpr (Or.inr ⟨hcon, by linarith⟩)
    have h2 : t ≤ 0 := by rw [htdef]; nlinarith
    linarith
  have ht_le_raw : t ≤ raw := by
    rw [htdef]
    nlinarith [mul_nonneg hraw_pos.le hbtq0]
  have hu0 : 0 ≤ u := by
    rw [hu]
    nlinarith [mul_nonneg htpos.le (sub_nonneg.mpr hstq)]
  have hu_le : u ≤ t := by
    rw [hu]
    nlinarith [mul_nonneg htpos.le hstq0]
  rcases eq_or_lt_of_le hS with hS0 | hSpos
  · have hout0 : out = 0 := by
      rw [hout, ← hS0]
      simp
    rw [hout0]
    simpa using hx
  · have hn_ne : n ≠ 0 := by
      intro h0
      rw [h0, add_zero] at hraw
      have hST : S * T / S = T := mul_div_cancel_left₀ T (ne_of_gt hSpos)
      rw [hST] at hraw
      rw [hraw] at hraw_pos
      simp at hraw_pos
    have hn_pos : 0 < n := lt_of_le_of_ne hn0 (Ne.symm hn_ne)
    have hSn : 0 < S + n := by linarith
    have hSn' : S + n ≠ 0 := ne_of_gt hSn
    have hraw2 : raw = T * n / (S + n) := by
      rw [hraw]
      field_simp
      ring
    have hTn : T * n = raw * (S + n) := (div_eq_iff hSn').mp hraw2.symm
    have hT_pos : 0 < T := by
      rcases lt_or_le 0 T with h | h
      · exact h
      · exfalso
        have h1 : T * n ≤ 0 := mul_nonpos_iff.mpr (Or.inr ⟨h, hn0⟩)
        have h2 : 0 < raw * (S + n) := mul_pos hraw_pos hSn
        linarith
    have hTu : 0 < T + u := by linarith
    have hTu' : T + u ≠ 0 := ne_of_gt hTu
    have hout2 : out = S * u / (T + u) := by
      rw [hout]
      field_simp
      ring
    have hout_le1 : out ≤ S * t / (T + t) := by
      rw [hout2]
      exact frac_le_frac S T u t hSpos.le hT_pos hu0 hu_le
    have hout_le2 : S * t / (T + t) ≤ S * raw / (T + raw) :=
      frac_le_frac S T t raw hSpos.le hT_pos htpos.le ht_le_raw
    have hTraw : 0 < T + raw := by linarith
    have hfinal : S * raw / (T + raw) < n := by
      rw [div_lt_iff₀ hTraw]
      have hTn' : n * T = raw * S + raw * n := by
        rw [mul_comm n T, hTn]
        ring
      have hexp : n * (T + raw) = n * T + n * raw := by ring
      rw [hexp, hTn']
      linarith [mul_pos hraw_pos hn_pos]
    have hout0 : 0 ≤ out := by
      rw [hout2]
      exact div_nonneg (mul_nonneg hSpos.le hu0) hTu.le
    linarith [mul_nonneg hout0 hfq0]

/-- C7: feeding the tokensOut of a buy quote back into a sell quote on
the same pool yields strictly less stable coin than the original
stableIn - the round trip is value-destructive, never identity or
value-creating - for every pool with valid basis-point taxes, every
config with a valid trading fee, and every stableIn > 0. -/
theorem buy_sell_roundTrip_lossy :
    ∀ (p : PoolData) (x : ℚ) (config : Option ℕ),
    0 < x → effBuyTax p ≤ 10000 → effSellTax p ≤ 10000 →
    effTradingFee config ≤ 10000 →
    (calculateSellUsdcOut (some p)
      (some ((calculateBuyTokensOut (some p) (some x) config).tokensOut))
      config).usdcOut < x := by
  intro p x config hx hbt hst hfee
  set t := (calculateBuyTokensOut (some p) (some x) config).tokensOut with htdef0
  rcases le_or_lt t 0 with htle | htpos
  · rw [sell_usdcOut_zero_of_nonpos p t config htle]
    exact hx
  · rw [sell_usdcOut_eq p t config htpos]
    rw [buy_tokensOut_eq p x config hx] at htdef0
    refine roundtrip_arith (totalStableQ p) (totalTokenQ p) x
      ((effTradingFee config : ℚ)) ((effBuyTax p : ℚ)) ((effSellTax p : ℚ))
      (x - x * ((effTradingFee config : ℚ) / 10000))
      (totalTokenQ p - totalStableQ p * totalTokenQ p /
        (totalStableQ p + (x - x * ((effTradingFee config : ℚ) / 10000))))
      t
      (t - t * ((effSellTax p : ℚ) / 10000))
      (totalStableQ p - totalStableQ p * totalTokenQ p /
        (totalTokenQ p + (t - t * ((effSellTax p : ℚ) / 10000))))
      ?_ ?_ hx ?_ ?_ ?_ ?_ ?_ ?_ rfl rfl htdef0 htpos rfl rfl
    · unfold totalStableQ
      positivity
    · unfold totalTokenQ
      positivity
    · exact_mod_cast one_le_effTradingFee config
    · exact_mod_cast hfee
    · positivity
    · exact_mod_cast hbt
    · positivity
    · exact_mod_cast hst

theorem buy_sell_roundTrip_lossy_witness :
    (calculateSellUsdcOut (some examplePool)
      (some ((calculateBuyTokensOut (some examplePool) (some 1000) (some 100)).tokensOut))
      (some 100)).usdcOut < 1000 :=
  buy_sell_roundTrip_lossy examplePool 1000 (some 100) (by norm_num)
    (by decide) (by decide) (by decide)

end GenysysPad
